import Mathlib

/-!
Shallow embedding of the overtime engine of `driver-ot-tracker`
(`src/services/timeService.ts`, plus the superseded variant kept in the
repository), together with theorems checking the specification's claims.

Modelling conventions:
* Instants are whole minutes since an epoch (`Instant.minutes : ℤ`); the
  calendar day of an instant is `minutes.fdiv 1440`.  date-fns's
  `differenceInMinutes` is exact at this granularity, and
  `format(date, 'yyyy-MM-dd')` is injective on calendar days, so the
  process-wide holiday list of `yyyy-MM-dd` strings is modelled as a list of
  calendar-day indices passed explicitly (the TS list is module-global,
  mutable state).
* Epoch day 0 is 1970-01-01, a Thursday; hence date-fns `isSaturday` holds
  exactly when the day index is ≡ 2 (mod 7) and `isSunday` when ≡ 3 (mod 7).
* Minute quantities are ℤ (the engine only ever receives and produces whole
  minutes); hours and currency amounts are ℚ, standing for the exact values
  of the JavaScript arithmetic `m / 60`, `rate * mult`, etc.
-/

namespace DriverOT

/-- A point in time, at one-minute granularity: minutes since the epoch. -/
structure Instant where
  minutes : ℤ
deriving DecidableEq, Repr

/-- The calendar day an instant falls on (floor division by 24×60 minutes);
this is what `format(date, 'yyyy-MM-dd')` exposes of a `Date`. -/
def Instant.day (t : Instant) : ℤ :=
  t.minutes.fdiv 1440

/-- date-fns `differenceInMinutes(clockOut, clockIn)`: signed whole-minute
difference (exact at this embedding's one-minute granularity). -/
def differenceInMinutes (later earlier : Instant) : ℤ :=
  later.minutes - earlier.minutes

/-- date-fns `isSaturday`: epoch day 0 is a Thursday, so Saturday days are
≡ 2 (mod 7). -/
def isSaturday (t : Instant) : Bool :=
  t.day.emod 7 == 2

/-- date-fns `isSunday`: Sunday days are ≡ 3 (mod 7). -/
def isSunday (t : Instant) : Bool :=
  t.day.emod 7 == 3

/-- `type DayType = 'weekday' | 'weekend' | 'public_holiday'` (src/types.ts). -/
inductive DayType where
  | weekday
  | weekend
  | public_holiday
deriving DecidableEq, Repr

/-- Constants of `timeService.ts`. -/
def BASIC_SALARY : ℚ := 3200

def WORK_DAYS_PER_MONTH : ℚ := 26

def HOURS_PER_DAY : ℚ := 8

/-- `BASIC_SALARY / WORK_DAYS_PER_MONTH / HOURS_PER_DAY` (≈ RM 15.38/hour). -/
def BASE_HOURLY_RATE : ℚ := BASIC_SALARY / WORK_DAYS_PER_MONTH / HOURS_PER_DAY

/-- Minimum block for OT calculation, in minutes. -/
def BLOCK_MINUTES : ℤ := 30

def RATE_1X : ℚ := 1.0

def RATE_1_5X : ℚ := 1.5

def RATE_2X : ℚ := 2.0

def RATE_3X : ℚ := 3.0

/-- Weekday first-tier threshold: 10 hours. -/
def WEEKDAY_FIXED_OT_MINUTES : ℤ := 600

/-- Weekend first-tier threshold: 6 hours. -/
def WEEKEND_FIRST_TIER_MINUTES : ℤ := 360

/-- Public-holiday first-tier threshold: 9 hours. -/
def PUBLIC_HOLIDAY_FIRST_TIER_MINUTES : ℤ := 540

/-- RM 30 for outstation overnight. -/
def MEAL_ALLOWANCE : ℚ := 30

/-- `isPublicHoliday(date)`: `PUBLIC_HOLIDAYS.includes(format(date, 'yyyy-MM-dd'))`.
The holiday list (day indices, see module docstring) is passed explicitly. -/
def isPublicHoliday (holidays : List ℤ) (date : Instant) : Bool :=
  decide (date.day ∈ holidays)

/-- `getDayType(date, isPublicHolidayOverride?)` of `timeService.ts`:
override (`=== true`) first, then the holiday list, then Saturday/Sunday,
else weekday. -/
def getDayType (holidays : List ℤ) (date : Instant)
    (isPublicHolidayOverride : Option Bool) : DayType :=
  if isPublicHolidayOverride = some true then
    .public_holiday
  else if isPublicHoliday holidays date then
    .public_holiday
  else if isSaturday date || isSunday date then
    .weekend
  else
    .weekday

/-- `roundToBlocks(minutes)`: `Math.ceil(minutes / BLOCK_MINUTES) * BLOCK_MINUTES`. -/
def roundToBlocks (minutes : ℤ) : ℤ :=
  Int.ceil ((minutes : ℚ) / (BLOCK_MINUTES : ℚ)) * BLOCK_MINUTES

/-- The raw minutes the engine assigns to each tier.  In
`OTCalculationBreakdown` these are the fields `fixedOTMinutes`,
`otMinutes1x`, `otMinutes1_5x`, `otMinutes2x`, `otMinutes3x`; unassigned
tiers keep their initial value 0. -/
structure TierMinutes where
  fixedOT : ℤ := 0
  ot1x : ℤ := 0
  ot1_5x : ℤ := 0
  ot2x : ℤ := 0
  ot3x : ℤ := 0
deriving DecidableEq, Repr

/-- The tier-assignment chain of `calculateOvertime` (current version): for
the clock-in day's `DayType`, an if/else-if chain on
`cumulativeMinutesWorkedToday` against the day's first-tier threshold
dispatches `remainingMinutes` into the day's two tiers. -/
def partitionSession (dayType : DayType)
    (cumulativeMinutesWorkedToday remainingMinutes : ℤ) : TierMinutes :=
  match dayType with
  | .weekday =>
    if cumulativeMinutesWorkedToday ≥ WEEKDAY_FIXED_OT_MINUTES then
      { ot1_5x := remainingMinutes }
    else if cumulativeMinutesWorkedToday + remainingMinutes > WEEKDAY_FIXED_OT_MINUTES then
      let minutesInFixedOT := WEEKDAY_FIXED_OT_MINUTES - cumulativeMinutesWorkedToday
      { fixedOT := minutesInFixedOT, ot1_5x := remainingMinutes - minutesInFixedOT }
    else
      { fixedOT := remainingMinutes }
  | .weekend =>
    if cumulativeMinutesWorkedToday ≥ WEEKEND_FIRST_TIER_MINUTES then
      { ot1_5x := remainingMinutes }
    else if cumulativeMinutesWorkedToday + remainingMinutes > WEEKEND_FIRST_TIER_MINUTES then
      let minutesAt1x := WEEKEND_FIRST_TIER_MINUTES - cumulativeMinutesWorkedToday
      { ot1x := minutesAt1x, ot1_5x := remainingMinutes - minutesAt1x }
    else
      { ot1x := remainingMinutes }
  | .public_holiday =>
    if cumulativeMinutesWorkedToday ≥ PUBLIC_HOLIDAY_FIRST_TIER_MINUTES then
      { ot3x := remainingMinutes }
    else if cumulativeMinutesWorkedToday + remainingMinutes > PUBLIC_HOLIDAY_FIRST_TIER_MINUTES then
      let minutesAt2x := PUBLIC_HOLIDAY_FIRST_TIER_MINUTES - cumulativeMinutesWorkedToday
      { ot2x := minutesAt2x, ot3x := remainingMinutes - minutesAt2x }
    else
      { ot2x := remainingMinutes }

/-- The per-tier pricing step of `calculateOvertime`: an amount field is set
only when the tier's raw minutes are > 0 (else it keeps its initial 0), to
`roundToBlocks(m) / 60 * BASE_HOURLY_RATE * rate`. -/
def tierAmount (m : ℤ) (rate : ℚ) : ℚ :=
  if m > 0 then (roundToBlocks m : ℚ) / 60 * BASE_HOURLY_RATE * rate else 0

/-- `interface OTCalculationBreakdown` (src/types.ts). -/
structure OTCalculationBreakdown where
  duration : ℤ
  dayType : DayType
  fixedOTHours : ℚ
  fixedOTMinutes : ℤ
  otHours1x : ℚ
  otHours1_5x : ℚ
  otHours2x : ℚ
  otHours3x : ℚ
  otMinutes1x : ℤ
  otMinutes1_5x : ℤ
  otMinutes2x : ℤ
  otMinutes3x : ℤ
  otAmount1x : ℚ
  otAmount1_5x : ℚ
  otAmount2x : ℚ
  otAmount3x : ℚ
  mealAllowance : ℚ
  totalOTAmount : ℚ
  totalAmount : ℚ
deriving DecidableEq, Repr

/-- `calculateOvertime(clockIn, clockOut, isOutstationOvernight,
isPublicHolidayOverride, cumulativeMinutesWorkedToday)` of
`src/services/timeService.ts`.  The breakdown starts all-zero except
`duration`, `dayType` and `mealAllowance`; the `totalMinutes <= 0` early
return skips tiering and pricing; otherwise the tier chain fills the minute
fields (hours = minutes/60 for the assigned tiers, and 0 = 0/60 for the
rest), each positive tier is priced on its block-rounded minutes, and the
totals are summed from the per-tier amounts. -/
def calculateOvertime (holidays : List ℤ) (clockIn clockOut : Instant)
    (isOutstationOvernight : Bool := false)
    (isPublicHolidayOverride : Option Bool := none)
    (cumulativeMinutesWorkedToday : ℤ := 0) : OTCalculationBreakdown :=
  let totalMinutes := differenceInMinutes clockOut clockIn
  let dayType := getDayType holidays clockIn isPublicHolidayOverride
  let mealAllowance : ℚ := if isOutstationOvernight then MEAL_ALLOWANCE else 0
  if totalMinutes ≤ 0 then
    { duration := totalMinutes, dayType := dayType
      fixedOTHours := 0, fixedOTMinutes := 0
      otHours1x := 0, otHours1_5x := 0, otHours2x := 0, otHours3x := 0
      otMinutes1x := 0, otMinutes1_5x := 0, otMinutes2x := 0, otMinutes3x := 0
      otAmount1x := 0, otAmount1_5x := 0, otAmount2x := 0, otAmount3x := 0
      mealAllowance := mealAllowance
      totalOTAmount := 0
      totalAmount := mealAllowance }
  else
    let t := partitionSession dayType cumulativeMinutesWorkedToday totalMinutes
    let otAmount1x := tierAmount t.ot1x RATE_1X
    let otAmount1_5x := tierAmount t.ot1_5x RATE_1_5X
    let otAmount2x := tierAmount t.ot2x RATE_2X
    let otAmount3x := tierAmount t.ot3x RATE_3X
    let totalOTAmount := otAmount1x + otAmount1_5x + otAmount2x + otAmount3x
    { duration := totalMinutes, dayType := dayType
      fixedOTHours := (t.fixedOT : ℚ) / 60, fixedOTMinutes := t.fixedOT
      otHours1x := (t.ot1x : ℚ) / 60, otHours1_5x := (t.ot1_5x : ℚ) / 60
      otHours2x := (t.ot2x : ℚ) / 60, otHours3x := (t.ot3x : ℚ) / 60
      otMinutes1x := t.ot1x, otMinutes1_5x := t.ot1_5x
      otMinutes2x := t.ot2x, otMinutes3x := t.ot3x
      otAmount1x := otAmount1x, otAmount1_5x := otAmount1_5x
      otAmount2x := otAmount2x, otAmount3x := otAmount3x
      mealAllowance := mealAllowance
      totalOTAmount := totalOTAmount
      totalAmount := totalOTAmount + mealAllowance }

/-- The tier-assignment chain of the superseded, cumulative-agnostic
`calculateOvertime` kept in the repository: a two-way split of
`remainingMinutes` against the day's fixed threshold. -/
def partitionSessionLegacy (dayType : DayType) (remainingMinutes : ℤ) : TierMinutes :=
  match dayType with
  | .weekday =>
    if remainingMinutes > WEEKDAY_FIXED_OT_MINUTES then
      { fixedOT := WEEKDAY_FIXED_OT_MINUTES
        ot1_5x := remainingMinutes - WEEKDAY_FIXED_OT_MINUTES }
    else
      { fixedOT := remainingMinutes }
  | .weekend =>
    if remainingMinutes > WEEKEND_FIRST_TIER_MINUTES then
      { ot1x := WEEKEND_FIRST_TIER_MINUTES
        ot1_5x := remainingMinutes - WEEKEND_FIRST_TIER_MINUTES }
    else
      { ot1x := remainingMinutes }
  | .public_holiday =>
    if remainingMinutes > PUBLIC_HOLIDAY_FIRST_TIER_MINUTES then
      { ot2x := PUBLIC_HOLIDAY_FIRST_TIER_MINUTES
        ot3x := remainingMinutes - PUBLIC_HOLIDAY_FIRST_TIER_MINUTES }
    else
      { ot2x := remainingMinutes }

/-- The superseded `calculateOvertime(clockIn, clockOut,
isOutstationOvernight, isPublicHolidayOverride)` variant kept in the
repository: identical shell (same constants, same `getDayType`, same
rounding and pricing, same totals), but no cumulative-minutes parameter. -/
def calculateOvertimeLegacy (holidays : List ℤ) (clockIn clockOut : Instant)
    (isOutstationOvernight : Bool := false)
    (isPublicHolidayOverride : Option Bool := none) : OTCalculationBreakdown :=
  let totalMinutes := differenceInMinutes clockOut clockIn
  let dayType := getDayType holidays clockIn isPublicHolidayOverride
  let mealAllowance : ℚ := if isOutstationOvernight then MEAL_ALLOWANCE else 0
  if totalMinutes ≤ 0 then
    { duration := totalMinutes, dayType := dayType
      fixedOTHours := 0, fixedOTMinutes := 0
      otHours1x := 0, otHours1_5x := 0, otHours2x := 0, otHours3x := 0
      otMinutes1x := 0, otMinutes1_5x := 0, otMinutes2x := 0, otMinutes3x := 0
      otAmount1x := 0, otAmount1_5x := 0, otAmount2x := 0, otAmount3x := 0
      mealAllowance := mealAllowance
      totalOTAmount := 0
      totalAmount := mealAllowance }
  else
    let t := partitionSessionLegacy dayType totalMinutes
    let otAmount1x := tierAmount t.ot1x RATE_1X
    let otAmount1_5x := tierAmount t.ot1_5x RATE_1_5X
    let otAmount2x := tierAmount t.ot2x RATE_2X
    let otAmount3x := tierAmount t.ot3x RATE_3X
    let totalOTAmount := otAmount1x + otAmount1_5x + otAmount2x + otAmount3x
    { duration := totalMinutes, dayType := dayType
      fixedOTHours := (t.fixedOT : ℚ) / 60, fixedOTMinutes := t.fixedOT
      otHours1x := (t.ot1x : ℚ) / 60, otHours1_5x := (t.ot1_5x : ℚ) / 60
      otHours2x := (t.ot2x : ℚ) / 60, otHours3x := (t.ot3x : ℚ) / 60
      otMinutes1x := t.ot1x, otMinutes1_5x := t.ot1_5x
      otMinutes2x := t.ot2x, otMinutes3x := t.ot3x
      otAmount1x := otAmount1x, otAmount1_5x := otAmount1_5x
      otAmount2x := otAmount2x, otAmount3x := otAmount3x
      mealAllowance := mealAllowance
      totalOTAmount := totalOTAmount
      totalAmount := totalOTAmount + mealAllowance }

/-- Each `DayType`'s first-tier threshold `T` (spec §4.2 table). -/
def firstTierThreshold : DayType → ℤ
  | .weekday => WEEKDAY_FIXED_OT_MINUTES
  | .weekend => WEEKEND_FIRST_TIER_MINUTES
  | .public_holiday => PUBLIC_HOLIDAY_FIRST_TIER_MINUTES

/-- The minutes a breakdown records in its day-type's first tier (weekday:
the unpaid fixed-OT tier; weekend: the 1.0x tier; public holiday: the 2.0x
tier). -/
def firstTierMinutes (b : OTCalculationBreakdown) : ℤ :=
  match b.dayType with
  | .weekday => b.fixedOTMinutes
  | .weekend => b.otMinutes1x
  | .public_holiday => b.otMinutes2x

/-- The minutes a breakdown records in its day-type's overflow tier
(weekday and weekend: the 1.5x tier; public holiday: the 3.0x tier). -/
def overflowTierMinutes (b : OTCalculationBreakdown) : ℤ :=
  match b.dayType with
  | .weekday => b.otMinutes1_5x
  | .weekend => b.otMinutes1_5x
  | .public_holiday => b.otMinutes3x

/-- The spec's per-tier pricing formula `(ceil(m / 30) * 30 / 60) *
baseHourlyRate * k` for a paid tier with positive raw minutes, and 0 for an
unused tier. -/
def specTierPrice (m : ℤ) (k : ℚ) : ℚ :=
  if 0 < m then
    ((Int.ceil ((m : ℚ) / 30) * 30 : ℤ) : ℚ) / 60 * BASE_HOURLY_RATE * k
  else 0

end DriverOT

namespace DriverOT

/-! ### Helper lemmas -/

/-- For integer minutes, `Math.ceil (m / 30)` is the floor division
`(m + 29).fdiv 30`; this makes `roundToBlocks` kernel-computable. -/
lemma ceil_div_thirty (m : ℤ) : Int.ceil ((m : ℚ) / 30) = (m + 29).fdiv 30 := by
  have h30 : (0:ℚ) < 30 := by norm_num
  have hq : (m + 29).fdiv 30 = (m + 29) / 30 := Int.fdiv_eq_ediv _ (by norm_num)
  have hid : 30 * ((m + 29) / 30) + (m + 29) % 30 = m + 29 := Int.ediv_add_emod _ _
  have hr0 : 0 ≤ (m + 29) % 30 := Int.emod_nonneg _ (by norm_num)
  have hr1 : (m + 29) % 30 < 30 := Int.emod_lt_of_pos _ (by norm_num)
  have h2 : m ≤ 30 * ((m + 29) / 30) := by omega
  have h1 : 30 * ((m + 29) / 30) - 30 < m := by omega
  have h2q : ((m : ℚ)) ≤ ((30 * ((m + 29) / 30) : ℤ) : ℚ) := by exact_mod_cast h2
  have h1q : (((30 * ((m + 29) / 30) - 30 : ℤ)) : ℚ) < (m : ℚ) := by exact_mod_cast h1
  push_cast at h2q h1q
  rw [hq, Int.ceil_eq_iff]
  refine ⟨?_, ?_⟩
  · rw [lt_div_iff₀ h30]
    linarith
  · rw [div_le_iff₀ h30]
    linarith

/-- `roundToBlocks` as a pure integer computation. -/
lemma roundToBlocks_eq_fdiv (m : ℤ) : roundToBlocks m = (m + 29).fdiv 30 * 30 := by
  unfold roundToBlocks BLOCK_MINUTES
  rw [show ((30 : ℤ) : ℚ) = (30 : ℚ) by norm_num, ceil_div_thirty]

/-- The breakdown's `dayType` field is `getDayType` of the clock-in. -/
lemma calcOT_dayType (holidays : List ℤ) (clockIn clockOut : Instant)
    (o : Bool) (ovr : Option Bool) (c : ℤ) :
    (calculateOvertime holidays clockIn clockOut o ovr c).dayType =
      getDayType holidays clockIn ovr := by
  simp only [calculateOvertime]
  split <;> rfl

end DriverOT

namespace DriverOT

/-- Early-return case of `calculateOvertime` (`totalMinutes <= 0`): the
initial breakdown with `totalAmount` set to the allowance. -/
lemma calcOT_nonpos (holidays : List ℤ) (clockIn clockOut : Instant)
    (o : Bool) (ovr : Option Bool) (c : ℤ)
    (hd : differenceInMinutes clockOut clockIn ≤ 0) :
    calculateOvertime holidays clockIn clockOut o ovr c =
      { duration := differenceInMinutes clockOut clockIn
        dayType := getDayType holidays clockIn ovr
        fixedOTHours := 0, fixedOTMinutes := 0
        otHours1x := 0, otHours1_5x := 0, otHours2x := 0, otHours3x := 0
        otMinutes1x := 0, otMinutes1_5x := 0, otMinutes2x := 0, otMinutes3x := 0
        otAmount1x := 0, otAmount1_5x := 0, otAmount2x := 0, otAmount3x := 0
        mealAllowance := if o then MEAL_ALLOWANCE else 0
        totalOTAmount := 0
        totalAmount := if o then MEAL_ALLOWANCE else 0 } := by
  simp only [calculateOvertime]
  rw [if_pos hd]

/-- Main case of `calculateOvertime` (`totalMinutes > 0`): tier minutes from
`partitionSession`, hours = minutes/60, amounts from `tierAmount`, totals
summed. -/
lemma calcOT_pos (holidays : List ℤ) (clockIn clockOut : Instant)
    (o : Bool) (ovr : Option Bool) (c : ℤ)
    (hd : 0 < differenceInMinutes clockOut clockIn) :
    calculateOvertime holidays clockIn clockOut o ovr c =
      { duration := differenceInMinutes clockOut clockIn
        dayType := getDayType holidays clockIn ovr
        fixedOTHours := ((partitionSession (getDayType holidays clockIn ovr) c
          (differenceInMinutes clockOut clockIn)).fixedOT : ℚ) / 60
        fixedOTMinutes := (partitionSession (getDayType holidays clockIn ovr) c
          (differenceInMinutes clockOut clockIn)).fixedOT
        otHours1x := ((partitionSession (getDayType holidays clockIn ovr) c
          (differenceInMinutes clockOut clockIn)).ot1x : ℚ) / 60
        otHours1_5x := ((partitionSession (getDayType holidays clockIn ovr) c
          (differenceInMinutes clockOut clockIn)).ot1_5x : ℚ) / 60
        otHours2x := ((partitionSession (getDayType holidays clockIn ovr) c
          (differenceInMinutes clockOut clockIn)).ot2x : ℚ) / 60
        otHours3x := ((partitionSession (getDayType holidays clockIn ovr) c
          (differenceInMinutes clockOut clockIn)).ot3x : ℚ) / 60
        otMinutes1x := (partitionSession (getDayType holidays clockIn ovr) c
          (differenceInMinutes clockOut clockIn)).ot1x
        otMinutes1_5x := (partitionSession (getDayType holidays clockIn ovr) c
          (differenceInMinutes clockOut clockIn)).ot1_5x
        otMinutes2x := (partitionSession (getDayType holidays clockIn ovr) c
          (differenceInMinutes clockOut clockIn)).ot2x
        otMinutes3x := (partitionSession (getDayType holidays clockIn ovr) c
          (differenceInMinutes clockOut clockIn)).ot3x
        otAmount1x := tierAmount (partitionSession (getDayType holidays clockIn ovr) c
          (differenceInMinutes clockOut clockIn)).ot1x RATE_1X
        otAmount1_5x := tierAmount (partitionSession (getDayType holidays clockIn ovr) c
          (differenceInMinutes clockOut clockIn)).ot1_5x RATE_1_5X
        otAmount2x := tierAmount (partitionSession (getDayType holidays clockIn ovr) c
          (differenceInMinutes clockOut clockIn)).ot2x RATE_2X
        otAmount3x := tierAmount (partitionSession (getDayType holidays clockIn ovr) c
          (differenceInMinutes clockOut clockIn)).ot3x RATE_3X
        mealAllowance := if o then MEAL_ALLOWANCE else 0
        totalOTAmount :=
          tierAmount (partitionSession (getDayType holidays clockIn ovr) c
            (differenceInMinutes clockOut clockIn)).ot1x RATE_1X +
          tierAmount (partitionSession (getDayType holidays clockIn ovr) c
            (differenceInMinutes clockOut clockIn)).ot1_5x RATE_1_5X +
          tierAmount (partitionSession (getDayType holidays clockIn ovr) c
            (differenceInMinutes clockOut clockIn)).ot2x RATE_2X +
          tierAmount (partitionSession (getDayType holidays clockIn ovr) c
            (differenceInMinutes clockOut clockIn)).ot3x RATE_3X
        totalAmount :=
          tierAmount (partitionSession (getDayType holidays clockIn ovr) c
            (differenceInMinutes clockOut clockIn)).ot1x RATE_1X +
          tierAmount (partitionSession (getDayType holidays clockIn ovr) c
            (differenceInMinutes clockOut clockIn)).ot1_5x RATE_1_5X +
          tierAmount (partitionSession (getDayType holidays clockIn ovr) c
            (differenceInMinutes clockOut clockIn)).ot2x RATE_2X +
          tierAmount (partitionSession (getDayType holidays clockIn ovr) c
            (differenceInMinutes clockOut clockIn)).ot3x RATE_3X +
          (if o then MEAL_ALLOWANCE else 0) } := by
  simp only [calculateOvertime]
  rw [if_neg (by omega)]

/-- Non-negativity and conservation of `partitionSession`'s tier minutes. -/
lemma partitionSession_fields (d : DayType) (c m : ℤ) (hm : 0 < m) :
    0 ≤ (partitionSession d c m).fixedOT ∧
    0 ≤ (partitionSession d c m).ot1x ∧
    0 ≤ (partitionSession d c m).ot1_5x ∧
    0 ≤ (partitionSession d c m).ot2x ∧
    0 ≤ (partitionSession d c m).ot3x ∧
    (partitionSession d c m).fixedOT + (partitionSession d c m).ot1x +
      (partitionSession d c m).ot1_5x + (partitionSession d c m).ot2x +
      (partitionSession d c m).ot3x = m := by
  cases d <;>
    simp only [partitionSession, WEEKDAY_FIXED_OT_MINUTES, WEEKEND_FIRST_TIER_MINUTES,
      PUBLIC_HOLIDAY_FIRST_TIER_MINUTES] <;>
    split_ifs <;> dsimp only <;> omega

end DriverOT

namespace DriverOT

/-! ### Claim theorems -/

/-- `roundToBlocks` with the numeral 30 in place of `BLOCK_MINUTES`. -/
lemma roundToBlocks_def (n : ℤ) :
    roundToBlocks n = Int.ceil ((n : ℚ) / 30) * 30 := by
  simp only [roundToBlocks, BLOCK_MINUTES]
  norm_num

/-- C6: Block rounding monotonicity — for every non-negative integer minute
count `m`, `roundToBlocks m` (= `ceil(m / 30) * 30`) is at least `m`, equals
`m` exactly when `m` is a multiple of 30, and `roundToBlocks 0 = 0`: no
minimum charge for an unused tier. -/
theorem roundToBlocks_monotone (m : ℤ) (hm : 0 ≤ m) :
    m ≤ roundToBlocks m ∧ (roundToBlocks m = m ↔ (30 : ℤ) ∣ m) ∧
      roundToBlocks 0 = 0 := by
  have h30 : (0:ℚ) < 30 := by norm_num
  refine ⟨?_, ⟨?_, ?_⟩, ?_⟩
  · rw [roundToBlocks_def]
    have hle : ((m : ℚ) / 30) ≤ (Int.ceil ((m : ℚ) / 30) : ℚ) := Int.le_ceil _
    rw [div_le_iff₀ h30] at hle
    have hq : (m : ℚ) ≤ ((Int.ceil ((m : ℚ) / 30) * 30 : ℤ) : ℚ) := by push_cast; linarith
    exact_mod_cast hq
  · rw [roundToBlocks_def]
    intro h
    exact ⟨Int.ceil ((m : ℚ) / 30), by omega⟩
  · rintro ⟨k, rfl⟩
    rw [roundToBlocks_def]
    have hk : ((30 * k : ℤ) : ℚ) / 30 = (k : ℚ) := by push_cast; ring
    rw [hk, Int.ceil_intCast]
    ring
  · rw [roundToBlocks_def]
    norm_num

/-- Closed witness for `roundToBlocks_monotone` at `m = 45`. -/
theorem roundToBlocks_monotone_spot :
    (45 : ℤ) ≤ roundToBlocks 45 ∧ (roundToBlocks 45 = 45 ↔ (30 : ℤ) ∣ 45) ∧
      roundToBlocks 0 = 0 :=
  roundToBlocks_monotone 45 (by decide)

/-- C4: Day classification precedence — `getDayType` returns
`public_holiday` whenever the override is `true` (regardless of calendar);
otherwise `public_holiday` exactly when the clock-in's calendar day is in
the holiday set; otherwise `weekend` exactly when the date falls on a
Saturday or Sunday; otherwise `weekday`; and classification compares dates
by calendar day, not time-of-day. -/
theorem getDayType_precedence (holidays : List ℤ) (t : Instant) (ovr : Option Bool) :
    (ovr = some true → getDayType holidays t ovr = .public_holiday) ∧
    (ovr ≠ some true →
      (getDayType holidays t ovr = .public_holiday ↔ t.day ∈ holidays)) ∧
    (ovr ≠ some true → t.day ∉ holidays →
      (getDayType holidays t ovr = .weekend ↔
        (isSaturday t = true ∨ isSunday t = true))) ∧
    (ovr ≠ some true → t.day ∉ holidays →
      ¬(isSaturday t = true ∨ isSunday t = true) →
      getDayType holidays t ovr = .weekday) ∧
    (∀ t' : Instant, t.day = t'.day →
      getDayType holidays t ovr = getDayType holidays t' ovr) := by
  refine ⟨?_, ?_, ?_, ?_, ?_⟩
  · intro h
    simp [getDayType, h]
  · intro h
    simp only [getDayType, if_neg h, isPublicHoliday]
    split_ifs with h1 h2 <;> simp_all
  · intro h hmem
    simp only [getDayType, if_neg h, isPublicHoliday]
    rw [if_neg (by simpa using hmem)]
    split_ifs with h2 <;> simp_all [Bool.or_eq_true]
  · intro h hmem hwk
    simp only [getDayType, if_neg h, isPublicHoliday]
    rw [if_neg (by simpa using hmem), if_neg (by simpa [Bool.or_eq_true] using hwk)]
  · intro t' hday
    simp only [getDayType, isPublicHoliday, isSaturday, isSunday, hday]

/-- C9: the breakdown's day classification depends only on the clock-in
instant and the override, never on the clock-out instant — two runs sharing
`clockIn`, override, outstation flag and cumulative minutes but with
different `clockOut`s (e.g. one past midnight) get the same `dayType`,
namely `getDayType` of the clock-in date. -/
theorem calculateOvertime_dayType_from_clockIn (holidays : List ℤ)
    (clockIn clockOut clockOut' : Instant) (o : Bool) (ovr : Option Bool) (c : ℤ) :
    (calculateOvertime holidays clockIn clockOut o ovr c).dayType =
      (calculateOvertime holidays clockIn clockOut' o ovr c).dayType ∧
    (calculateOvertime holidays clockIn clockOut o ovr c).dayType =
      getDayType holidays clockIn ovr := by
  rw [calcOT_dayType, calcOT_dayType]
  exact ⟨rfl, rfl⟩

end DriverOT

namespace DriverOT

/-- C1: Tier partitioning follows the three-case boundary rule uniformly for
every `DayType` with that day's threshold `T` (`firstTierThreshold`: weekday
600, weekend 360, public holiday 540): with `before ≥ T` the whole session
lands in the overflow tier; with `before < T < before + dur` exactly
`T - before` minutes land in the first tier and `before + dur - T` in the
overflow tier; otherwise the whole session lands in the first tier (weekday
first tier = unpaid fixed OT, overflow = 1.5x; weekend 1.0x / 1.5x; public
holiday 2.0x / 3.0x — see `firstTierMinutes` / `overflowTierMinutes`). -/
theorem calculateOvertime_tier_boundary (hs : List ℤ) (ci co : Instant)
    (o : Bool) (ovr : Option Bool) (before : ℤ)
    (hb : 0 ≤ before) (hd : 0 < differenceInMinutes co ci) :
    (firstTierThreshold (calculateOvertime hs ci co o ovr before).dayType ≤ before →
      firstTierMinutes (calculateOvertime hs ci co o ovr before) = 0 ∧
      overflowTierMinutes (calculateOvertime hs ci co o ovr before) =
        differenceInMinutes co ci) ∧
    (before < firstTierThreshold (calculateOvertime hs ci co o ovr before).dayType →
      firstTierThreshold (calculateOvertime hs ci co o ovr before).dayType <
        before + differenceInMinutes co ci →
      firstTierMinutes (calculateOvertime hs ci co o ovr before) =
        firstTierThreshold (calculateOvertime hs ci co o ovr before).dayType - before ∧
      overflowTierMinutes (calculateOvertime hs ci co o ovr before) =
        before + differenceInMinutes co ci -
          firstTierThreshold (calculateOvertime hs ci co o ovr before).dayType) ∧
    (before + differenceInMinutes co ci ≤
        firstTierThreshold (calculateOvertime hs ci co o ovr before).dayType →
      firstTierMinutes (calculateOvertime hs ci co o ovr before) =
        differenceInMinutes co ci ∧
      overflowTierMinutes (calculateOvertime hs ci co o ovr before) = 0) := by
  rw [calcOT_pos hs ci co o ovr before hd]
  cases hdt : getDayType hs ci ovr <;>
    simp only [firstTierMinutes, overflowTierMinutes, firstTierThreshold, partitionSession,
      WEEKDAY_FIXED_OT_MINUTES, WEEKEND_FIRST_TIER_MINUTES,
      PUBLIC_HOLIDAY_FIRST_TIER_MINUTES] <;>
    split_ifs <;> dsimp only <;> omega

/-- Closed witness for `calculateOvertime_tier_boundary`: a 660-minute
weekday session with no prior minutes straddles the 600-minute boundary. -/
theorem calculateOvertime_tier_boundary_spot :
    firstTierMinutes (calculateOvertime [] ⟨0⟩ ⟨660⟩ false none 0) =
      firstTierThreshold (calculateOvertime [] ⟨0⟩ ⟨660⟩ false none 0).dayType - 0 ∧
    overflowTierMinutes (calculateOvertime [] ⟨0⟩ ⟨660⟩ false none 0) =
      0 + differenceInMinutes ⟨660⟩ ⟨0⟩ -
        firstTierThreshold (calculateOvertime [] ⟨0⟩ ⟨660⟩ false none 0).dayType :=
  (calculateOvertime_tier_boundary [] ⟨0⟩ ⟨660⟩ false none 0 (by decide)
    (by decide)).2.1 (by decide) (by decide)

/-- C2: Conservation of minutes — for any session and non-negative cumulative
minutes, every tier-minute field of the breakdown is non-negative and their
sum is `max 0 (clockOut - clockIn)`. -/
theorem calculateOvertime_conservation (hs : List ℤ) (ci co : Instant)
    (o : Bool) (ovr : Option Bool) (c : ℤ) (hc : 0 ≤ c) :
    0 ≤ (calculateOvertime hs ci co o ovr c).fixedOTMinutes ∧
    0 ≤ (calculateOvertime hs ci co o ovr c).otMinutes1x ∧
    0 ≤ (calculateOvertime hs ci co o ovr c).otMinutes1_5x ∧
    0 ≤ (calculateOvertime hs ci co o ovr c).otMinutes2x ∧
    0 ≤ (calculateOvertime hs ci co o ovr c).otMinutes3x ∧
    (calculateOvertime hs ci co o ovr c).fixedOTMinutes +
      (calculateOvertime hs ci co o ovr c).otMinutes1x +
      (calculateOvertime hs ci co o ovr c).otMinutes1_5x +
      (calculateOvertime hs ci co o ovr c).otMinutes2x +
      (calculateOvertime hs ci co o ovr c).otMinutes3x =
      max 0 (differenceInMinutes co ci) := by
  rcases le_or_lt (differenceInMinutes co ci) 0 with hd | hd
  · rw [calcOT_nonpos hs ci co o ovr c hd]
    dsimp only
    omega
  · rw [calcOT_pos hs ci co o ovr c hd]
    dsimp only
    have h := partitionSession_fields (getDayType hs ci ovr) c
      (differenceInMinutes co ci) hd
    omega

/-- Closed witness for `calculateOvertime_conservation`: a 700-minute
overridden-holiday session after 100 prior minutes. -/
theorem calculateOvertime_conservation_spot :
    0 ≤ (calculateOvertime [] ⟨0⟩ ⟨700⟩ true (some true) 100).fixedOTMinutes ∧
    0 ≤ (calculateOvertime [] ⟨0⟩ ⟨700⟩ true (some true) 100).otMinutes1x ∧
    0 ≤ (calculateOvertime [] ⟨0⟩ ⟨700⟩ true (some true) 100).otMinutes1_5x ∧
    0 ≤ (calculateOvertime [] ⟨0⟩ ⟨700⟩ true (some true) 100).otMinutes2x ∧
    0 ≤ (calculateOvertime [] ⟨0⟩ ⟨700⟩ true (some true) 100).otMinutes3x ∧
    (calculateOvertime [] ⟨0⟩ ⟨700⟩ true (some true) 100).fixedOTMinutes +
      (calculateOvertime [] ⟨0⟩ ⟨700⟩ true (some true) 100).otMinutes1x +
      (calculateOvertime [] ⟨0⟩ ⟨700⟩ true (some true) 100).otMinutes1_5x +
      (calculateOvertime [] ⟨0⟩ ⟨700⟩ true (some true) 100).otMinutes2x +
      (calculateOvertime [] ⟨0⟩ ⟨700⟩ true (some true) 100).otMinutes3x =
      max 0 (differenceInMinutes ⟨700⟩ ⟨0⟩) :=
  calculateOvertime_conservation [] ⟨0⟩ ⟨700⟩ true (some true) 100 (by decide)

/-- C3: Degenerate case — if the end is not after the start (`clockOut ≤
clockIn`), tiering is skipped entirely: every tier minute, hour and amount
field is zero, `totalOTAmount` is zero, and `totalAmount` is exactly the
flat allowance (30 when the outstation flag is set, else 0), for every
`DayType` and cumulative-minutes value. -/
theorem calculateOvertime_degenerate (hs : List ℤ) (ci co : Instant)
    (o : Bool) (ovr : Option Bool) (c : ℤ)
    (hd : differenceInMinutes co ci ≤ 0) :
    (calculateOvertime hs ci co o ovr c).fixedOTMinutes = 0 ∧
    (calculateOvertime hs ci co o ovr c).otMinutes1x = 0 ∧
    (calculateOvertime hs ci co o ovr c).otMinutes1_5x = 0 ∧
    (calculateOvertime hs ci co o ovr c).otMinutes2x = 0 ∧
    (calculateOvertime hs ci co o ovr c).otMinutes3x = 0 ∧
    (calculateOvertime hs ci co o ovr c).fixedOTHours = 0 ∧
    (calculateOvertime hs ci co o ovr c).otHours1x = 0 ∧
    (calculateOvertime hs ci co o ovr c).otHours1_5x = 0 ∧
    (calculateOvertime hs ci co o ovr c).otHours2x = 0 ∧
    (calculateOvertime hs ci co o ovr c).otHours3x = 0 ∧
    (calculateOvertime hs ci co o ovr c).otAmount1x = 0 ∧
    (calculateOvertime hs ci co o ovr c).otAmount1_5x = 0 ∧
    (calculateOvertime hs ci co o ovr c).otAmount2x = 0 ∧
    (calculateOvertime hs ci co o ovr c).otAmount3x = 0 ∧
    (calculateOvertime hs ci co o ovr c).totalOTAmount = 0 ∧
    (calculateOvertime hs ci co o ovr c).totalAmount =
      (if o then (30 : ℚ) else 0) := by
  rw [calcOT_nonpos hs ci co o ovr c hd]
  dsimp only
  simp [MEAL_ALLOWANCE]

/-- Closed witness for `calculateOvertime_degenerate`: clock-out equals
clock-in, outstation set. -/
theorem calculateOvertime_degenerate_spot :
    (calculateOvertime [] ⟨500⟩ ⟨500⟩ true none 0).fixedOTMinutes = 0 ∧
    (calculateOvertime [] ⟨500⟩ ⟨500⟩ true none 0).otMinutes1x = 0 ∧
    (calculateOvertime [] ⟨500⟩ ⟨500⟩ true none 0).otMinutes1_5x = 0 ∧
    (calculateOvertime [] ⟨500⟩ ⟨500⟩ true none 0).otMinutes2x = 0 ∧
    (calculateOvertime [] ⟨500⟩ ⟨500⟩ true none 0).otMinutes3x = 0 ∧
    (calculateOvertime [] ⟨500⟩ ⟨500⟩ true none 0).fixedOTHours = 0 ∧
    (calculateOvertime [] ⟨500⟩ ⟨500⟩ true none 0).otHours1x = 0 ∧
    (calculateOvertime [] ⟨500⟩ ⟨500⟩ true none 0).otHours1_5x = 0 ∧
    (calculateOvertime [] ⟨500⟩ ⟨500⟩ true none 0).otHours2x = 0 ∧
    (calculateOvertime [] ⟨500⟩ ⟨500⟩ true none 0).otHours3x = 0 ∧
    (calculateOvertime [] ⟨500⟩ ⟨500⟩ true none 0).otAmount1x = 0 ∧
    (calculateOvertime [] ⟨500⟩ ⟨500⟩ true none 0).otAmount1_5x = 0 ∧
    (calculateOvertime [] ⟨500⟩ ⟨500⟩ true none 0).otAmount2x = 0 ∧
    (calculateOvertime [] ⟨500⟩ ⟨500⟩ true none 0).otAmount3x = 0 ∧
    (calculateOvertime [] ⟨500⟩ ⟨500⟩ true none 0).totalOTAmount = 0 ∧
    (calculateOvertime [] ⟨500⟩ ⟨500⟩ true none 0).totalAmount =
      (if true then (30 : ℚ) else 0) :=
  calculateOvertime_degenerate [] ⟨500⟩ ⟨500⟩ true none 0 (by decide)

end DriverOT

namespace DriverOT

/-- The engine's pricing step agrees with the spec's per-tier price formula. -/
lemma tierAmount_eq_spec (m : ℤ) (r : ℚ) : tierAmount m r = specTierPrice m r := by
  simp only [tierAmount, specTierPrice, roundToBlocks_def, gt_iff_lt]

/-- C5: Per-tier pricing — each paid tier with positive raw minutes `m` and
multiplier `k` is priced at `(ceil(m / 30) * 30 / 60) * BASE_HOURLY_RATE * k`
(`specTierPrice`, zero when the tier is unused); rounding is applied
independently to each paid tier, never to the session total, and the unpaid
weekday fixed-OT tier contributes zero to every amount field: all four
amounts and both totals are determined by the paid tiers' minutes alone. -/
theorem calculateOvertime_per_tier_pricing (hs : List ℤ) (ci co : Instant)
    (o : Bool) (ovr : Option Bool) (c : ℤ) :
    (calculateOvertime hs ci co o ovr c).otAmount1x =
      specTierPrice (calculateOvertime hs ci co o ovr c).otMinutes1x RATE_1X ∧
    (calculateOvertime hs ci co o ovr c).otAmount1_5x =
      specTierPrice (calculateOvertime hs ci co o ovr c).otMinutes1_5x RATE_1_5X ∧
    (calculateOvertime hs ci co o ovr c).otAmount2x =
      specTierPrice (calculateOvertime hs ci co o ovr c).otMinutes2x RATE_2X ∧
    (calculateOvertime hs ci co o ovr c).otAmount3x =
      specTierPrice (calculateOvertime hs ci co o ovr c).otMinutes3x RATE_3X ∧
    (calculateOvertime hs ci co o ovr c).totalOTAmount =
      specTierPrice (calculateOvertime hs ci co o ovr c).otMinutes1x RATE_1X +
      specTierPrice (calculateOvertime hs ci co o ovr c).otMinutes1_5x RATE_1_5X +
      specTierPrice (calculateOvertime hs ci co o ovr c).otMinutes2x RATE_2X +
      specTierPrice (calculateOvertime hs ci co o ovr c).otMinutes3x RATE_3X ∧
    (calculateOvertime hs ci co o ovr c).totalAmount =
      specTierPrice (calculateOvertime hs ci co o ovr c).otMinutes1x RATE_1X +
      specTierPrice (calculateOvertime hs ci co o ovr c).otMinutes1_5x RATE_1_5X +
      specTierPrice (calculateOvertime hs ci co o ovr c).otMinutes2x RATE_2X +
      specTierPrice (calculateOvertime hs ci co o ovr c).otMinutes3x RATE_3X +
      (calculateOvertime hs ci co o ovr c).mealAllowance := by
  rcases le_or_lt (differenceInMinutes co ci) 0 with hd | hd
  · rw [calcOT_nonpos hs ci co o ovr c hd]
    dsimp only
    simp [specTierPrice]
  · rw [calcOT_pos hs ci co o ovr c hd]
    simp [tierAmount_eq_spec]

/-- C7: Totals composition — `totalOTAmount` is the sum of the four per-tier
priced amounts (excluding the allowance), and `totalAmount` is
`totalOTAmount` plus the flat allowance; both are computed from the rounded,
priced per-tier amounts, not by pricing raw elapsed minutes. -/
theorem calculateOvertime_totals (hs : List ℤ) (ci co : Instant)
    (o : Bool) (ovr : Option Bool) (c : ℤ) :
    (calculateOvertime hs ci co o ovr c).totalOTAmount =
      (calculateOvertime hs ci co o ovr c).otAmount1x +
      (calculateOvertime hs ci co o ovr c).otAmount1_5x +
      (calculateOvertime hs ci co o ovr c).otAmount2x +
      (calculateOvertime hs ci co o ovr c).otAmount3x ∧
    (calculateOvertime hs ci co o ovr c).totalAmount =
      (calculateOvertime hs ci co o ovr c).totalOTAmount +
      (calculateOvertime hs ci co o ovr c).mealAllowance := by
  rcases le_or_lt (differenceInMinutes co ci) 0 with hd | hd
  · rw [calcOT_nonpos hs ci co o ovr c hd]
    dsimp only
    norm_num
  · rw [calcOT_pos hs ci co o ovr c hd]
    exact ⟨rfl, rfl⟩

/-- C8: Allowance independence — with everything else fixed, the runs with
the outstation flag set and cleared agree on `dayType`, `duration`, every
tier minute, hour and amount field, and `totalOTAmount`; they differ only in
`mealAllowance` (30 vs 0) and `totalAmount` (which is exactly 30 larger),
regardless of day type and of whether any OT was earned. -/
theorem calculateOvertime_allowance_independence (hs : List ℤ)
    (ci co : Instant) (ovr : Option Bool) (c : ℤ) :
    (calculateOvertime hs ci co true ovr c).dayType =
      (calculateOvertime hs ci co false ovr c).dayType ∧
    (calculateOvertime hs ci co true ovr c).duration =
      (calculateOvertime hs ci co false ovr c).duration ∧
    (calculateOvertime hs ci co true ovr c).fixedOTMinutes =
      (calculateOvertime hs ci co false ovr c).fixedOTMinutes ∧
    (calculateOvertime hs ci co true ovr c).otMinutes1x =
      (calculateOvertime hs ci co false ovr c).otMinutes1x ∧
    (calculateOvertime hs ci co true ovr c).otMinutes1_5x =
      (calculateOvertime hs ci co false ovr c).otMinutes1_5x ∧
    (calculateOvertime hs ci co true ovr c).otMinutes2x =
      (calculateOvertime hs ci co false ovr c).otMinutes2x ∧
    (calculateOvertime hs ci co true ovr c).otMinutes3x =
      (calculateOvertime hs ci co false ovr c).otMinutes3x ∧
    (calculateOvertime hs ci co true ovr c).fixedOTHours =
      (calculateOvertime hs ci co false ovr c).fixedOTHours ∧
    (calculateOvertime hs ci co true ovr c).otHours1x =
      (calculateOvertime hs ci co false ovr c).otHours1x ∧
    (calculateOvertime hs ci co true ovr c).otHours1_5x =
      (calculateOvertime hs ci co false ovr c).otHours1_5x ∧
    (calculateOvertime hs ci co true ovr c).otHours2x =
      (calculateOvertime hs ci co false ovr c).otHours2x ∧
    (calculateOvertime hs ci co true ovr c).otHours3x =
      (calculateOvertime hs ci co false ovr c).otHours3x ∧
    (calculateOvertime hs ci co true ovr c).otAmount1x =
      (calculateOvertime hs ci co false ovr c).otAmount1x ∧
    (calculateOvertime hs ci co true ovr c).otAmount1_5x =
      (calculateOvertime hs ci co false ovr c).otAmount1_5x ∧
    (calculateOvertime hs ci co true ovr c).otAmount2x =
      (calculateOvertime hs ci co false ovr c).otAmount2x ∧
    (calculateOvertime hs ci co true ovr c).otAmount3x =
      (calculateOvertime hs ci co false ovr c).otAmount3x ∧
    (calculateOvertime hs ci co true ovr c).totalOTAmount =
      (calculateOvertime hs ci co false ovr c).totalOTAmount ∧
    (calculateOvertime hs ci co true ovr c).mealAllowance = 30 ∧
    (calculateOvertime hs ci co false ovr c).mealAllowance = 0 ∧
    (calculateOvertime hs ci co true ovr c).totalAmount =
      (calculateOvertime hs ci co false ovr c).totalAmount + 30 := by
  rcases le_or_lt (differenceInMinutes co ci) 0 with hd | hd
  · rw [calcOT_nonpos hs ci co true ovr c hd, calcOT_nonpos hs ci co false ovr c hd]
    dsimp only
    norm_num [MEAL_ALLOWANCE]
  · rw [calcOT_pos hs ci co true ovr c hd, calcOT_pos hs ci co false ovr c hd]
    dsimp only
    norm_num [MEAL_ALLOWANCE]

/-- With zero cumulative minutes the accumulation-aware tier chain reduces
to the superseded two-way split. -/
lemma partitionSession_zero (d : DayType) (m : ℤ) :
    partitionSession d 0 m = partitionSessionLegacy d m := by
  cases d <;>
    simp only [partitionSession, partitionSessionLegacy, WEEKDAY_FIXED_OT_MINUTES,
      WEEKEND_FIRST_TIER_MINUTES, PUBLIC_HOLIDAY_FIRST_TIER_MINUTES] <;>
    split_ifs <;> simp only [TierMinutes.mk.injEq, and_true, true_and] <;> omega

/-- C10: Conservative extension — for every clock-in, clock-out, outstation
flag and override, `calculateOvertime` with `cumulativeMinutesWorkedToday =
0` returns a breakdown identical in every field to the superseded
cumulative-agnostic `calculateOvertimeLegacy` on the same holiday
configuration. -/
theorem calculateOvertime_zero_cumulative_eq_legacy (hs : List ℤ)
    (ci co : Instant) (o : Bool) (ovr : Option Bool) :
    calculateOvertime hs ci co o ovr 0 = calculateOvertimeLegacy hs ci co o ovr := by
  simp only [calculateOvertime, calculateOvertimeLegacy, partitionSession_zero]

end DriverOT

namespace DriverOT

/-! ### Concrete scenario checks (spec §8) -/

/-- Scenario A (weekday, no prior minutes, 660 min): unpaid tier 600 min,
overflow 60 min. -/
example :
    (calculateOvertime [] ⟨0⟩ ⟨660⟩ false none 0).fixedOTMinutes = 600 ∧
    (calculateOvertime [] ⟨0⟩ ⟨660⟩ false none 0).otMinutes1_5x = 60 := by
  constructor <;> decide

/-- Scenario A, priced: 60 overflow minutes are already a block, priced at
`1.0h × (3200/26/8) × 1.5 = 300/13`. -/
example : (calculateOvertime [] ⟨0⟩ ⟨660⟩ false none 0).otAmount1_5x = 300 / 13 := by
  rw [calcOT_pos [] ⟨0⟩ ⟨660⟩ false none 0 (by decide)]
  dsimp only
  have hday : getDayType [] ⟨0⟩ none = .weekday := by decide
  rw [hday]
  have hpart : partitionSession .weekday 0 (differenceInMinutes ⟨660⟩ ⟨0⟩) =
      { fixedOT := 600, ot1_5x := 60 } := by decide
  rw [hpart]
  have hrb : roundToBlocks 60 = 60 := by rw [roundToBlocks_eq_fdiv]; decide
  norm_num [tierAmount, hrb, RATE_1_5X, BASE_HOURLY_RATE, BASIC_SALARY,
    WORK_DAYS_PER_MONTH, HOURS_PER_DAY]

/-- Scenario B (weekend, straddling): clock-in on a Saturday (epoch day 2),
300 prior minutes, 180-minute session → 60 min at 1.0x, 120 min at 1.5x. -/
example :
    (calculateOvertime [] ⟨2880⟩ ⟨3060⟩ false none 300).otMinutes1x = 60 ∧
    (calculateOvertime [] ⟨2880⟩ ⟨3060⟩ false none 300).otMinutes1_5x = 120 := by
  constructor <;> decide

/-- Scenario C (public holiday via the calendar, 700 min, no prior minutes):
540 min at 2.0x, 160 min at 3.0x; 160 rounds up to 180. -/
example :
    (calculateOvertime [5] ⟨7200⟩ ⟨7900⟩ true none 0).otMinutes2x = 540 ∧
    (calculateOvertime [5] ⟨7200⟩ ⟨7900⟩ true none 0).otMinutes3x = 160 ∧
    roundToBlocks 160 = 180 := by
  refine ⟨by decide, by decide, ?_⟩
  rw [roundToBlocks_eq_fdiv]
  decide

/-- Scenario E (override on an ordinary weekday date): `override = true`
forces `public_holiday`. -/
example : getDayType [] ⟨720⟩ (some true) = .public_holiday ∧
    getDayType [] ⟨720⟩ none = .weekday := by
  constructor <;> decide

end DriverOT
